import Mathlib

/-
Verification of the PTCGP card-database query layer (src/main.py).

The module loads a JSON document into a process-wide variable
`cards_data` and serves read-only queries over it.  We embed the JSON
value space, the Python truthiness test used by the per-request guard,
the builtin conversions the endpoints rely on (str(), str.lower(),
substring membership, iteration, slicing), and each endpoint as a total
Lean function from the published state and the request arguments to an
HTTP-level outcome.
-/

set_option autoImplicit false

/-- JSON values, as produced by json.load: null, booleans, numbers
(modelled as integers; no claim involves fractional values), strings,
arrays, and objects.  Objects are key/value lists in document order;
json.load keeps at most one binding per key. -/
inductive Json where
  | null : Json
  | bool (b : Bool) : Json
  | num (n : Int) : Json
  | str (s : String) : Json
  | arr (xs : List Json) : Json
  | obj (kvs : List (String × Json)) : Json

mutual
/-- Boolean equality on JSON values. -/
def Json.beq : Json → Json → Bool
  | .null, .null => true
  | .bool a, .bool b => a == b
  | .num a, .num b => a == b
  | .str a, .str b => a == b
  | .arr xs, .arr ys => Json.beqL xs ys
  | .obj a, .obj b => Json.beqKV a b
  | _, _ => false

/-- Boolean equality on JSON arrays. -/
def Json.beqL : List Json → List Json → Bool
  | [], [] => true
  | x :: xs, y :: ys => Json.beq x y && Json.beqL xs ys
  | _, _ => false

/-- Boolean equality on JSON object bindings. -/
def Json.beqKV : List (String × Json) → List (String × Json) → Bool
  | [], [] => true
  | (k, v) :: xs, (k2, v2) :: ys => k == k2 && Json.beq v v2 && Json.beqKV xs ys
  | _, _ => false
end

mutual
/-- Json.beq decides propositional equality. -/
theorem Json.beq_iff : ∀ a b : Json, Json.beq a b = true ↔ a = b
  | .null, .null => by simp [Json.beq]
  | .bool a, .bool b => by simp [Json.beq]
  | .num a, .num b => by simp [Json.beq]
  | .str a, .str b => by simp [Json.beq]
  | .arr xs, .arr ys => by simp [Json.beq, Json.beqL_iff xs ys]
  | .obj a, .obj b => by simp [Json.beq, Json.beqKV_iff a b]
  | .null, .bool _ | .null, .num _ | .null, .str _ | .null, .arr _ | .null, .obj _
  | .bool _, .null | .bool _, .num _ | .bool _, .str _ | .bool _, .arr _ | .bool _, .obj _
  | .num _, .null | .num _, .bool _ | .num _, .str _ | .num _, .arr _ | .num _, .obj _
  | .str _, .null | .str _, .bool _ | .str _, .num _ | .str _, .arr _ | .str _, .obj _
  | .arr _, .null | .arr _, .bool _ | .arr _, .num _ | .arr _, .str _ | .arr _, .obj _
  | .obj _, .null | .obj _, .bool _ | .obj _, .num _ | .obj _, .str _ | .obj _, .arr _ => by
      simp [Json.beq]

/-- Json.beqL decides propositional equality. -/
theorem Json.beqL_iff : ∀ a b : List Json, Json.beqL a b = true ↔ a = b
  | [], [] => by simp [Json.beqL]
  | x :: xs, y :: ys => by
      simp [Json.beqL, Json.beq_iff x y, Json.beqL_iff xs ys]
  | [], _ :: _ => by simp [Json.beqL]
  | _ :: _, [] => by simp [Json.beqL]

/-- Json.beqKV decides propositional equality. -/
theorem Json.beqKV_iff : ∀ a b : List (String × Json), Json.beqKV a b = true ↔ a = b
  | [], [] => by simp [Json.beqKV]
  | (k, v) :: xs, (k2, v2) :: ys => by
      simp [Json.beqKV, Json.beq_iff v v2, Json.beqKV_iff xs ys, and_assoc]
  | [], _ :: _ => by simp [Json.beqKV]
  | _ :: _, [] => by simp [Json.beqKV]
end

instance : DecidableEq Json := fun a b =>
  if h : Json.beq a b = true then isTrue ((Json.beq_iff a b).mp h)
  else isFalse (fun e => h ((Json.beq_iff a b).mpr e))

/-- Outcome of a request handler: an HTTPException with status code and
detail message, or an uncaught runtime error (TypeError/AttributeError,
surfaced by the server as an internal error). -/
inductive Err where
  | http (status : Nat) (detail : String) : Err
  | typeError : Err
  deriving DecidableEq

instance {ε α : Type} [DecidableEq ε] [DecidableEq α] : DecidableEq (Except ε α) :=
  fun x y =>
  match x, y with
  | .ok a, .ok b =>
      if h : a = b then .isTrue (h ▸ rfl) else .isFalse (fun e => h (Except.ok.inj e))
  | .error a, .error b =>
      if h : a = b then .isTrue (h ▸ rfl) else .isFalse (fun e => h (Except.error.inj e))
  | .ok _, .error _ => .isFalse (fun e => Except.noConfusion e)
  | .error _, .ok _ => .isFalse (fun e => Except.noConfusion e)

/-- The HTTPException raised by every endpoint when `cards_data` is falsy. -/
def notLoadedErr : Err := Err.http 500 "Cards data not loaded"

/-- The HTTPException raised by get_card_by_id when no record matches. -/
def notFoundErr : Err := Err.http 404 "Card not found"

/-- First binding of a key in an object, i.e. Python dict lookup
(bindings are unique, so first = only). -/
def lookupKV : List (String × Json) → String → Option Json
  | [], _ => none
  | (k, v) :: rest, key => if key = k then some v else lookupKV rest key

/-- Python truthiness of a JSON value: None, False, 0, the empty string,
the empty list and the empty dict are falsy; everything else is truthy. -/
def Json.truthy : Json → Bool
  | .null => false
  | .bool b => b
  | .num n => n != 0
  | .str s => !s.isEmpty
  | .arr xs => !xs.isEmpty
  | .obj kvs => !kvs.isEmpty

/-- The guard condition `not cards_data`: true when the module variable
is still None or holds a falsy value. -/
def pyNot : Option Json → Bool
  | none => true
  | some j => !j.truthy

mutual
/-- Python repr() of a JSON value (as used by str() on containers). -/
def pyRepr : Json → String
  | .null => "None"
  | .bool true => "True"
  | .bool false => "False"
  | .num n => toString n
  | .str s => "\x27" ++ s ++ "\x27"
  | .arr xs => "[" ++ pyReprSeq xs ++ "]"
  | .obj kvs => "\x7b" ++ pyReprMap kvs ++ "\x7d"

/-- Comma-separated repr of the elements of a list. -/
def pyReprSeq : List Json → String
  | [] => ""
  | [x] => pyRepr x
  | x :: y :: rest => pyRepr x ++ ", " ++ pyReprSeq (y :: rest)

/-- Comma-separated repr of the bindings of a dict. -/
def pyReprMap : List (String × Json) → String
  | [] => ""
  | [(k, v)] => "\x27" ++ k ++ "\x27: " ++ pyRepr v
  | (k, v) :: p :: rest => "\x27" ++ k ++ "\x27: " ++ pyRepr v ++ ", " ++ pyReprMap (p :: rest)
end

/-- Python str() of a JSON value: identity on strings, repr otherwise. -/
def pyStr : Json → String
  | .str s => s
  | j => pyRepr j

/-- Python str.lower on one character (ASCII case folding). -/
def pyLowerChar (c : Char) : Char :=
  if 'A' ≤ c ∧ c ≤ 'Z' then Char.ofNat (c.toNat + 32) else c

/-- Python str.lower on a string. -/
def pyLower (s : String) : String :=
  String.mk (s.data.map pyLowerChar)

/-- Whether pat occurs at the start of hay. -/
def isPre : List Char → List Char → Bool
  | [], _ => true
  | _ :: _, [] => false
  | a :: pat, b :: hay => a = b && isPre pat hay

/-- Whether pat occurs contiguously somewhere in hay. -/
def containsSub : List Char → List Char → Bool
  | pat, [] => isPre pat []
  | pat, c :: rest => isPre pat (c :: rest) || containsSub pat rest

/-- The Python test `pat in hay` on strings: substring occurrence. -/
def strContains (hay pat : String) : Bool :=
  containsSub pat.data hay.data

example : strContains "xCharizardy" "char" = false := by decide
example : strContains (pyLower "xCharizardy") (pyLower "CHAR") = true := by decide
example : pyLower "A1" = "a1" := by decide
example : pyStr (Json.arr [Json.num 1, Json.str "a"]) = "[1, \x27a\x27]" := by decide

/-- Python iteration `for x in v`: a list yields its elements, a string
its characters (as one-character strings), a dict its keys; other values
raise TypeError. -/
def pyIter : Json → Except Err (List Json)
  | .arr xs => .ok xs
  | .str s => .ok (s.data.map fun c => Json.str (String.mk [c]))
  | .obj kvs => .ok (kvs.map fun p => Json.str p.1)
  | _ => .error .typeError

/-- Python len(): length of a list, string or dict; TypeError otherwise. -/
def pyLen : Json → Except Err Nat
  | .arr xs => .ok xs.length
  | .str s => .ok s.length
  | .obj kvs => .ok kvs.length
  | _ => .error .typeError

/-- Python slicing `v[off:]` as used on the cards value: defined on
lists and strings, TypeError otherwise. -/
def pySliceFrom : Json → Nat → Except Err Json
  | .arr xs, off => .ok (.arr (xs.drop off))
  | .str s, off => .ok (.str (String.mk (s.data.drop off)))
  | _, _ => .error .typeError

/-- Python slicing `v[:n]` as used on the cards value. -/
def pySliceTake : Json → Nat → Except Err Json
  | .arr xs, n => .ok (.arr (xs.take n))
  | .str s, n => .ok (.str (String.mk (s.data.take n)))
  | _, _ => .error .typeError

/-- The cards expression of get_all_cards (main.py lines 63-71):
the document itself when it is a list; `cards_data.get("cards",
list(cards_data.values()))` when it is a dict; `[]` otherwise. -/
def cardsExprAll (j : Json) : Json :=
  match j with
  | .arr xs => .arr xs
  | .obj kvs => (lookupKV kvs "cards").getD (.arr (kvs.map fun p => p.2))
  | _ => .arr []

/-- The cards expression shared by the search, filter and stats
endpoints (main.py lines 115-121 and copies): the document itself when
it is a list; `cards_data.get("cards", list(cards_data.values()))` when
it is a dict; on any other (truthy) value the attribute access
`cards_data.get` raises AttributeError. -/
def cardsExpr (j : Json) : Except Err Json :=
  match j with
  | .arr xs => .ok (.arr xs)
  | .obj kvs => .ok ((lookupKV kvs "cards").getD (.arr (kvs.map fun p => p.2)))
  | _ => .error .typeError

/-- Whether a JSON value is an object (a dict-shaped record). -/
def Json.isObjB : Json → Bool
  | .obj _ => true
  | _ => false

/-- FastAPI response-model enforcement for get_all_cards, declared as
`List[Dict[str, Any]]`: the value returned by the handler is served only
if it is a list of dicts; otherwise response validation fails and the
request errors. -/
def validateListDict (j : Json) : Except Err (List Json) :=
  match j with
  | .arr xs => if xs.all Json.isObjB then .ok xs else .error .typeError
  | _ => .error .typeError

/-- GET /cards (main.py get_all_cards): guard, normalize, slice by
offset, truncate by limit when limit is truthy, serve. -/
def get_all_cards (cd : Option Json) (limit : Option Nat) (offset : Nat) :
    Except Err (List Json) :=
  if pyNot cd then .error notLoadedErr else
  match cd with
  | none => .error notLoadedErr
  | some j => do
      let cards := cardsExprAll j
      let afterOff ← pySliceFrom cards offset
      let afterLim ← match limit with
        | some n => if n ≠ 0 then pySliceTake afterOff n else pure afterOff
        | none => pure afterOff
      validateListDict afterLim

/-- The body of the record-scanning loop of get_card_by_id: return the
first record whose id field, passed through str(), equals the key;
records are read with `card.get("id")`, which raises AttributeError on a
non-dict element. -/
def findCard (key : String) : List Json → Except Err (Option Json)
  | [] => .ok none
  | c :: rest =>
      match c with
      | .obj kvs =>
          if pyStr ((lookupKV kvs "id").getD .null) = key
          then .ok (some (.obj kvs))
          else findCard key rest
      | _ => .error .typeError

/-- GET /cards/{set_id}/{card_id} (main.py get_card_by_id): build the
composite key, guard, then: on a list scan it; on a dict first try the
key as a dict key, then scan `cards_data.get("cards", [])`; finally 404. -/
def get_card_by_id (cd : Option Json) (set_id card_id : String) :
    Except Err Json :=
  let key := "/" ++ set_id ++ "/" ++ card_id
  if pyNot cd then .error notLoadedErr else
  match cd with
  | none => .error notLoadedErr
  | some (.arr xs) => do
      let r ← findCard key xs
      match r with
      | some c => pure c
      | none => .error notFoundErr
  | some (.obj kvs) =>
      match lookupKV kvs key with
      | some v => .ok v
      | none => do
          let cardsv := (lookupKV kvs "cards").getD (.arr [])
          let items ← pyIter cardsv
          let r ← findCard key items
          match r with
          | some c => pure c
          | none => .error notFoundErr
  | some _ => .error notFoundErr

/-- The loop of search_cards_by_name: keep, in order, the records whose
name field (default "") contains the query case-insensitively; fields
are read with `card.get`, and `.lower()` is applied to the field value,
so non-dict records and non-string name values raise. -/
def searchLoop (nameq : String) : List Json → Except Err (List Json)
  | [] => .ok []
  | c :: rest =>
      match c with
      | .obj kvs =>
          match (lookupKV kvs "name").getD (.str "") with
          | .str cn =>
              if strContains (pyLower cn) (pyLower nameq)
              then (searchLoop nameq rest).map (fun l => .obj kvs :: l)
              else searchLoop nameq rest
          | _ => .error .typeError
      | _ => .error .typeError

/-- GET /cards/search/name/{name} (main.py search_cards_by_name). -/
def search_cards_by_name (cd : Option Json) (nameq : String) :
    Except Err (List Json) :=
  if pyNot cd then .error notLoadedErr else
  match cd with
  | none => .error notLoadedErr
  | some j => do
      let cv ← cardsExpr j
      let items ← pyIter cv
      searchLoop nameq items

/-- The loop shared by the three filter endpoints: keep, in order, the
records whose given field (default "") is case-insensitively equal to
the given value. -/
def filterLoop (field val : String) : List Json → Except Err (List Json)
  | [] => .ok []
  | c :: rest =>
      match c with
      | .obj kvs =>
          match (lookupKV kvs field).getD (.str "") with
          | .str fv =>
              if pyLower fv = pyLower val
              then (filterLoop field val rest).map (fun l => .obj kvs :: l)
              else filterLoop field val rest
          | _ => .error .typeError
      | _ => .error .typeError

/-- GET /cards/filter/type/{card_type} (main.py filter_cards_by_type). -/
def filter_cards_by_type (cd : Option Json) (card_type : String) :
    Except Err (List Json) :=
  if pyNot cd then .error notLoadedErr else
  match cd with
  | none => .error notLoadedErr
  | some j => do
      let cv ← cardsExpr j
      let items ← pyIter cv
      filterLoop "type" card_type items

/-- GET /cards/filter/rarity/{rarity} (main.py filter_cards_by_rarity). -/
def filter_cards_by_rarity (cd : Option Json) (rarity : String) :
    Except Err (List Json) :=
  if pyNot cd then .error notLoadedErr else
  match cd with
  | none => .error notLoadedErr
  | some j => do
      let cv ← cardsExpr j
      let items ← pyIter cv
      filterLoop "rarity" rarity items

/-- GET /cards/filter/set/{set_name} (main.py filter_cards_by_set). -/
def filter_cards_by_set (cd : Option Json) (set_name : String) :
    Except Err (List Json) :=
  if pyNot cd then .error notLoadedErr else
  match cd with
  | none => .error notLoadedErr
  | some j => do
      let cv ← cardsExpr j
      let items ← pyIter cv
      filterLoop "set" set_name items

/-- Result shape of the stats endpoint: the total and the three
frequency tables, each an insertion-ordered dict from label to count. -/
structure Stats where
  total_cards : Nat
  types : List (Json × Nat)
  rarities : List (Json × Nat)
  sets : List (Json × Nat)
  deriving DecidableEq

/-- Whether a JSON value is hashable in Python, i.e. usable as a dict
key: lists and dicts are not, every scalar is. -/
def pyHashable : Json → Bool
  | .arr _ => false
  | .obj _ => false
  | _ => true

/-- Canonical representative of a hashable JSON value under the Python
key identification: bool is a subtype of int in Python, so True and 1
(and False and 0) hash and compare equal and share one dict slot; all
other scalars are equal only to themselves.  Two hashable values are the
same Python dict key exactly when their representatives coincide. -/
def pyKey : Json → Json
  | .bool b => .num (if b then 1 else 0)
  | j => j

/-- One Python dict-counter update `d[k] = d.get(k, 0) + 1` on a
hashable key: an existing binding whose key is ==-equal (up to pyKey) is
bumped in place, keeping its original key and position; otherwise a new
binding is appended at the end. -/
def bump : List (Json × Nat) → Json → List (Json × Nat)
  | [], k => [(k, 1)]
  | (a, n) :: rest, k =>
      if pyKey k = pyKey a then (a, n + 1) :: rest else (a, n) :: bump rest k

/-- The label a record contributes to the table of a given field:
`card.get(field, "Unknown")`. -/
def labelOf (c : Json) (field : String) : Json :=
  match c with
  | .obj kvs => (lookupKV kvs field).getD (.str "Unknown")
  | _ => .str "Unknown"

/-- The tallying loop of get_stats, threading the three tables; a
non-dict record raises at `card.get`, and a record whose type, rarity or
set label is unhashable (a list or dict value) raises TypeError at the
counter lookup `d.get(label, 0)`. -/
def statsLoop :
    List Json → List (Json × Nat) → List (Json × Nat) → List (Json × Nat) →
    Except Err (List (Json × Nat) × List (Json × Nat) × List (Json × Nat))
  | [], t, r, s => .ok (t, r, s)
  | c :: rest, t, r, s =>
      match c with
      | .obj kvs =>
          if pyHashable (labelOf (.obj kvs) "type") &&
             pyHashable (labelOf (.obj kvs) "rarity") &&
             pyHashable (labelOf (.obj kvs) "set") then
            statsLoop rest
              (bump t (labelOf (.obj kvs) "type"))
              (bump r (labelOf (.obj kvs) "rarity"))
              (bump s (labelOf (.obj kvs) "set"))
          else .error .typeError
      | _ => .error .typeError

/-- GET /stats (main.py get_stats): guard, normalize, take the length,
tally the three frequency tables in one pass. -/
def get_stats (cd : Option Json) : Except Err Stats :=
  if pyNot cd then .error notLoadedErr else
  match cd with
  | none => .error notLoadedErr
  | some j => do
      let cv ← cardsExpr j
      let n ← pyLen cv
      let items ← pyIter cv
      let tbls ← statsLoop items [] [] []
      .ok ⟨n, tbls.1, tbls.2.1, tbls.2.2⟩

/-- Normalization rule stated by the spec (section 3): a top-level
sequence is the Dataset as-is; a mapping with a key "cards" bound to a
sequence contributes that sequence; any other mapping contributes its
values in iteration order; other documents have no Dataset.  This
definition follows the words of the spec, for comparison with the
normalization the source actually computes (cardsExpr, cardsExprAll). -/
def cardsOfSpec : Json → Option (List Json)
  | .arr xs => some xs
  | .obj kvs =>
      match lookupKV kvs "cards" with
      | some (.arr xs) => some xs
      | _ => some (kvs.map fun p => p.2)
  | _ => none

/-- The id of a record converted to string, per the spec wording for
getByKey: records are key/value maps, an absent id reads as None. -/
def idStrOf (c : Json) : String :=
  match c with
  | .obj kvs => pyStr ((lookupKV kvs "id").getD .null)
  | _ => pyStr .null

/-- Keyed lookup stated by the spec (section 4.2): the first record in
Dataset order whose id, converted to string, equals the composite key;
NotFound otherwise.  Follows the words of the spec. -/
def getByKeySpec (cards : List Json) (key : String) : Except Err Json :=
  match cards.find? (fun c => decide (idStrOf c = key)) with
  | some c => .ok c
  | none => .error notFoundErr

/-- Whether a record is a map whose given field is either absent or a
string, so the endpoint reads it without raising. -/
def fieldStrOkB (c : Json) (field : String) : Bool :=
  match c with
  | .obj kvs =>
      match (lookupKV kvs field).getD (.str "") with
      | .str _ => true
      | _ => false
  | _ => false

/-- The string content of a record field, default "" (meaningful for
records satisfying fieldStrOkB). -/
def fieldStrOf (c : Json) (field : String) : String :=
  match c with
  | .obj kvs =>
      match (lookupKV kvs field).getD (.str "") with
      | .str s => s
      | _ => ""
  | _ => ""

/-- The shape restriction under which the spec normalization rule and
the code agree: a sequence, or a mapping whose "cards" key is absent or
bound to a sequence. -/
def specShapeOkB : Json → Bool
  | .arr _ => true
  | .obj kvs =>
      match lookupKV kvs "cards" with
      | none => true
      | some (.arr _) => true
      | some _ => false
  | _ => false

/-- Count held for a label in a frequency table, 0 when absent: dict
indexing `d[label]`, with keys identified up to Python == (pyKey). -/
def lookupCount : List (Json × Nat) → Json → Nat
  | [], _ => 0
  | (a, n) :: t, k => if pyKey k = pyKey a then n else lookupCount t k

/-- Sum of the counts of a frequency table. -/
def sumCounts (t : List (Json × Nat)) : Nat :=
  (t.map fun p => p.2).sum

/-- Claim C8: with no Dataset published (cards_data still None), every
query operation — list, getByKey, searchByName, the three filters, and
stats — fails with the NotLoaded error instead of computing a result. -/
theorem claim_C8 (limit : Option Nat) (offset : Nat)
    (sid cid q t r sn : String) :
    get_all_cards none limit offset = .error notLoadedErr ∧
    get_card_by_id none sid cid = .error notLoadedErr ∧
    search_cards_by_name none q = .error notLoadedErr ∧
    filter_cards_by_type none t = .error notLoadedErr ∧
    filter_cards_by_rarity none r = .error notLoadedErr ∧
    filter_cards_by_set none sn = .error notLoadedErr ∧
    get_stats none = .error notLoadedErr :=
  ⟨rfl, rfl, rfl, rfl, rfl, rfl, rfl⟩

/-- Claim C10: when the successfully loaded document is an empty
top-level sequence or an empty mapping, every query operation —
including list and stats — fails with the same NotLoaded error raised
when nothing was loaded: an empty published dataset is indistinguishable
from no dataset at the public interface. -/
theorem claim_C10 (limit : Option Nat) (offset : Nat)
    (sid cid q t r sn : String) :
    (get_all_cards (some (.arr [])) limit offset = .error notLoadedErr ∧
     get_card_by_id (some (.arr [])) sid cid = .error notLoadedErr ∧
     search_cards_by_name (some (.arr [])) q = .error notLoadedErr ∧
     filter_cards_by_type (some (.arr [])) t = .error notLoadedErr ∧
     filter_cards_by_rarity (some (.arr [])) r = .error notLoadedErr ∧
     filter_cards_by_set (some (.arr [])) sn = .error notLoadedErr ∧
     get_stats (some (.arr [])) = .error notLoadedErr) ∧
    (get_all_cards (some (.obj [])) limit offset = .error notLoadedErr ∧
     get_card_by_id (some (.obj [])) sid cid = .error notLoadedErr ∧
     search_cards_by_name (some (.obj [])) q = .error notLoadedErr ∧
     filter_cards_by_type (some (.obj [])) t = .error notLoadedErr ∧
     filter_cards_by_rarity (some (.obj [])) r = .error notLoadedErr ∧
     filter_cards_by_set (some (.obj [])) sn = .error notLoadedErr ∧
     get_stats (some (.obj [])) = .error notLoadedErr) :=
  ⟨⟨rfl, rfl, rfl, rfl, rfl, rfl, rfl⟩, ⟨rfl, rfl, rfl, rfl, rfl, rfl, rfl⟩⟩

/-- Fixed example records used to instantiate the universally quantified
claim theorems at concrete inputs. -/
def pikaEx : Json :=
  .obj [("id", .str "/A1/001"), ("name", .str "Pikachu"),
        ("type", .str "Electric"), ("rarity", .str "Common"),
        ("set", .str "A1")]

/-- Second fixed example record. -/
def bulbaEx : Json :=
  .obj [("id", .str "/A1/002"), ("name", .str "Bulbasaur"),
        ("type", .str "Grass"), ("rarity", .str "Common"),
        ("set", .str "A1")]

/-- A nonempty list is truthy as a JSON array. -/
theorem truthy_arr {l : List Json} (h : l ≠ []) : (Json.arr l).truthy = true := by
  simp [Json.truthy, h]

/-- A truthy published document passes the guard. -/
theorem pyNot_some {j : Json} (h : j.truthy = true) : pyNot (some j) = false := by
  simp [pyNot, h]

@[simp] theorem exceptBindOk {ε α β : Type} (a : α) (f : α → Except ε β) :
    (Except.ok a : Except ε α) >>= f = f a := rfl

@[simp] theorem exceptBindErr {ε α β : Type} (e : ε) (f : α → Except ε β) :
    (Except.error e : Except ε α) >>= f = Except.error e := rfl

@[simp] theorem exceptMapOk {ε α β : Type} (a : α) (f : α → β) :
    (Except.ok a : Except ε α).map f = Except.ok (f a) := rfl

@[simp] theorem exceptMapErr {ε α β : Type} (e : ε) (f : α → β) :
    (Except.error e : Except ε α).map f = Except.error e := rfl

@[simp] theorem exceptPureEq {ε α : Type} (a : α) :
    (pure a : Except ε α) = Except.ok a := rfl

/-- Claim C4: on a published Dataset, list returns the Dataset in stored
order with the first offset records skipped and, when a limit (at least
1) is given, at most limit records; an offset at or past the end yields
the empty sequence rather than an error; with no limit all remaining
records are returned, so list(None, 0) is the whole Dataset. -/
theorem claim_C4 (d : Json) (l : List Json) (limit : Option Nat) (offset : Nat)
    (ht : d.truthy = true) (hc : cardsExprAll d = .arr l)
    (hobj : ∀ r ∈ l, r.isObjB = true) (hlim : ∀ n ∈ limit, 1 ≤ n) :
    get_all_cards (some d) limit offset =
      .ok (match limit with
           | some n => (l.drop offset).take n
           | none => l.drop offset) ∧
    (l.length ≤ offset → get_all_cards (some d) limit offset = .ok []) ∧
    (limit = none → offset = 0 → get_all_cards (some d) limit offset = .ok l) := by
  have hgate : pyNot (some d) = false := pyNot_some ht
  have hmain : get_all_cards (some d) limit offset =
      .ok (match limit with
           | some n => (l.drop offset).take n
           | none => l.drop offset) := by
    have halldrop : (l.drop offset).all Json.isObjB = true := by
      rw [List.all_eq_true]
      intro c hcmem
      exact hobj c (List.drop_subset _ _ hcmem)
    cases limit with
    | none =>
        simp only [get_all_cards, hgate, hc, pySliceFrom, validateListDict,
                   exceptBindOk, exceptPureEq, Bool.false_eq_true, if_false,
                   halldrop, if_true]
    | some n =>
        have hn : n ≠ 0 := by
          have := hlim n rfl
          omega
        have halltake : ((l.drop offset).take n).all Json.isObjB = true := by
          rw [List.all_eq_true]
          intro c hcmem
          exact hobj c (List.drop_subset _ _ (List.take_subset _ _ hcmem))
        simp only [get_all_cards, hgate, hc, pySliceFrom, pySliceTake,
                   validateListDict, exceptBindOk, Bool.false_eq_true,
                   if_false, hn, ite_false, halltake, if_true, ne_eq,
                   not_false_eq_true, ite_true]
  refine ⟨hmain, ?_, ?_⟩
  · intro hoff
    have hdrop : l.drop offset = [] := List.drop_eq_nil_of_le hoff
    rw [hmain]
    cases limit <;> simp [hdrop]
  · intro hnone hoff
    subst hnone
    subst hoff
    rw [hmain]
    simp

/-- Witness for claim C4 at a concrete two-record Dataset. -/
theorem claim_C4_witness :
    get_all_cards (some (.arr [pikaEx, bulbaEx])) (some 1) 1 = .ok [bulbaEx] := by
  have h := claim_C4 (.arr [pikaEx, bulbaEx]) [pikaEx, bulbaEx] (some 1) 1
    (by decide) rfl (by decide) (by intro n hn; cases hn; decide)
  simpa using h.1

/-- The search loop keeps exactly the records whose name field (default
"") contains the query case-insensitively, provided every record reads
its name without raising. -/
theorem searchLoop_eq_filter (q : String) :
    ∀ l : List Json, (∀ r ∈ l, fieldStrOkB r "name" = true) →
      searchLoop q l =
        .ok (l.filter fun r => strContains (pyLower (fieldStrOf r "name")) (pyLower q))
  | [], _ => rfl
  | c :: rest, hok => by
      have hc := hok c (List.mem_cons_self c rest)
      have hrest : ∀ r ∈ rest, fieldStrOkB r "name" = true :=
        fun r hr => hok r (List.mem_cons_of_mem c hr)
      have ih := searchLoop_eq_filter q rest hrest
      cases c with
      | obj kvs =>
          simp only [searchLoop]
          cases hname : (lookupKV kvs "name").getD (.str "") with
          | str cn =>
              have hfield : fieldStrOf (.obj kvs) "name" = cn := by
                simp [fieldStrOf, hname]
              by_cases hmatch :
                  strContains (pyLower cn) (pyLower q) = true
              · simp [hmatch, ih, List.filter, hfield]
              · simp [hmatch, ih, List.filter, hfield]
          | null => simp [fieldStrOkB, hname] at hc
          | bool b => simp [fieldStrOkB, hname] at hc
          | num n => simp [fieldStrOkB, hname] at hc
          | arr xs => simp [fieldStrOkB, hname] at hc
          | obj kvs2 => simp [fieldStrOkB, hname] at hc
      | null => simp [fieldStrOkB] at hc
      | bool b => simp [fieldStrOkB] at hc
      | num n => simp [fieldStrOkB] at hc
      | str s => simp [fieldStrOkB] at hc
      | arr xs => simp [fieldStrOkB] at hc

/-- Claim C5: on a published Dataset, searchByName returns exactly the
records, in Dataset order, whose name field (default "" when absent)
contains the query as a case-insensitive substring; no match yields an
empty ok result, not an error. -/
theorem claim_C5 (d : Json) (l : List Json) (q : String)
    (ht : d.truthy = true) (hc : cardsExpr d = .ok (.arr l))
    (hok : ∀ r ∈ l, fieldStrOkB r "name" = true) :
    search_cards_by_name (some d) q =
      .ok (l.filter fun r => strContains (pyLower (fieldStrOf r "name")) (pyLower q)) := by
  have hgate : pyNot (some d) = false := pyNot_some ht
  simp only [search_cards_by_name, hgate, Bool.false_eq_true, if_false, hc,
             exceptBindOk, pyIter]
  exact searchLoop_eq_filter q l hok

/-- Witness for claim C5: searching "CHAR" finds Charizard and
charmander but not Blastoise. -/
theorem claim_C5_witness :
    search_cards_by_name
      (some (.arr [.obj [("name", .str "Charizard")],
                   .obj [("name", .str "charmander")],
                   .obj [("name", .str "Blastoise")]])) "CHAR" =
      .ok [.obj [("name", .str "Charizard")],
           .obj [("name", .str "charmander")]] := by
  have h := claim_C5
    (.arr [.obj [("name", .str "Charizard")],
           .obj [("name", .str "charmander")],
           .obj [("name", .str "Blastoise")]])
    [.obj [("name", .str "Charizard")],
     .obj [("name", .str "charmander")],
     .obj [("name", .str "Blastoise")]] "CHAR"
    (by decide) rfl (by decide)
  simpa using h

/-- The filter loop keeps exactly the records whose given field (default
"") is case-insensitively equal to the value, provided every record
reads that field without raising. -/
theorem filterLoop_eq_filter (field val : String) :
    ∀ l : List Json, (∀ r ∈ l, fieldStrOkB r field = true) →
      filterLoop field val l =
        .ok (l.filter fun r => decide (pyLower (fieldStrOf r field) = pyLower val))
  | [], _ => rfl
  | c :: rest, hok => by
      have hc := hok c (List.mem_cons_self c rest)
      have hrest : ∀ r ∈ rest, fieldStrOkB r field = true :=
        fun r hr => hok r (List.mem_cons_of_mem c hr)
      have ih := filterLoop_eq_filter field val rest hrest
      cases c with
      | obj kvs =>
          simp only [filterLoop]
          cases hfv : (lookupKV kvs field).getD (.str "") with
          | str fv =>
              have hfield : fieldStrOf (.obj kvs) field = fv := by
                simp [fieldStrOf, hfv]
              by_cases hmatch : pyLower fv = pyLower val
              · simp [hmatch, ih, List.filter, hfield]
              · simp [hmatch, ih, List.filter, hfield]
          | null => simp [fieldStrOkB, hfv] at hc
          | bool b => simp [fieldStrOkB, hfv] at hc
          | num n => simp [fieldStrOkB, hfv] at hc
          | arr xs => simp [fieldStrOkB, hfv] at hc
          | obj kvs2 => simp [fieldStrOkB, hfv] at hc
      | null => simp [fieldStrOkB] at hc
      | bool b => simp [fieldStrOkB] at hc
      | num n => simp [fieldStrOkB] at hc
      | str s => simp [fieldStrOkB] at hc
      | arr xs => simp [fieldStrOkB] at hc

/-- Claim C6: on a published Dataset, each of filterByType,
filterByRarity and filterBySet returns exactly the records, in Dataset
order, whose corresponding field (default "" when absent) is
case-insensitively equal — full equality, not substring containment — to
the given value. -/
theorem claim_C6 (d : Json) (l : List Json) (v : String)
    (ht : d.truthy = true) (hc : cardsExpr d = .ok (.arr l))
    (hty : ∀ r ∈ l, fieldStrOkB r "type" = true)
    (hra : ∀ r ∈ l, fieldStrOkB r "rarity" = true)
    (hse : ∀ r ∈ l, fieldStrOkB r "set" = true) :
    filter_cards_by_type (some d) v =
      .ok (l.filter fun r => decide (pyLower (fieldStrOf r "type") = pyLower v)) ∧
    filter_cards_by_rarity (some d) v =
      .ok (l.filter fun r => decide (pyLower (fieldStrOf r "rarity") = pyLower v)) ∧
    filter_cards_by_set (some d) v =
      .ok (l.filter fun r => decide (pyLower (fieldStrOf r "set") = pyLower v)) := by
  have hgate : pyNot (some d) = false := pyNot_some ht
  refine ⟨?_, ?_, ?_⟩
  · simp only [filter_cards_by_type, hgate, Bool.false_eq_true, if_false, hc,
               exceptBindOk, pyIter]
    exact filterLoop_eq_filter "type" v l hty
  · simp only [filter_cards_by_rarity, hgate, Bool.false_eq_true, if_false, hc,
               exceptBindOk, pyIter]
    exact filterLoop_eq_filter "rarity" v l hra
  · simp only [filter_cards_by_set, hgate, Bool.false_eq_true, if_false, hc,
               exceptBindOk, pyIter]
    exact filterLoop_eq_filter "set" v l hse

/-- Witness for claim C6: filtering by type "fire" keeps the record with
type "Fire" (case difference, full equality) and drops type "Water" and
type "Fireball" (substring would keep it). -/
theorem claim_C6_witness :
    filter_cards_by_type
      (some (.arr [.obj [("type", .str "Fire")],
                   .obj [("type", .str "Water")],
                   .obj [("type", .str "Fireball")]])) "fire" =
      .ok [.obj [("type", .str "Fire")]] := by
  have h := claim_C6
    (.arr [.obj [("type", .str "Fire")],
           .obj [("type", .str "Water")],
           .obj [("type", .str "Fireball")]])
    [.obj [("type", .str "Fire")],
     .obj [("type", .str "Water")],
     .obj [("type", .str "Fireball")]] "fire"
    (by decide) rfl (by decide) (by decide) (by decide)
  simpa using h.1

/-- The search loop depends on the query only through its case folding. -/
theorem searchLoop_congr (q q' : String) (h : pyLower q = pyLower q') :
    ∀ l : List Json, searchLoop q l = searchLoop q' l
  | [] => rfl
  | c :: rest => by
      have ih := searchLoop_congr q q' h rest
      cases c with
      | obj kvs =>
          simp only [searchLoop]
          cases hname : (lookupKV kvs "name").getD (.str "") with
          | str cn => rw [h, ih]
          | null => rfl
          | bool b => rfl
          | num n => rfl
          | arr xs => rfl
          | obj kvs2 => rfl
      | null => rfl
      | bool b => rfl
      | num n => rfl
      | str s => rfl
      | arr xs => rfl

/-- The filter loop depends on the value only through its case folding. -/
theorem filterLoop_congr (field q q' : String) (h : pyLower q = pyLower q') :
    ∀ l : List Json, filterLoop field q l = filterLoop field q' l
  | [] => rfl
  | c :: rest => by
      have ih := filterLoop_congr field q q' h rest
      cases c with
      | obj kvs =>
          simp only [filterLoop]
          cases hfv : (lookupKV kvs field).getD (.str "") with
          | str fv => rw [h, ih]
          | null => rfl
          | bool b => rfl
          | num n => rfl
          | arr xs => rfl
          | obj kvs2 => rfl
      | null => rfl
      | bool b => rfl
      | num n => rfl
      | str s => rfl
      | arr xs => rfl

/-- Counterexample to claim C2: getByKey compares the composite key to
the stored ids with plain string equality, so lower-casing the setId
argument changes the outcome from NotFound to a hit. -/
theorem claim_C2_counterexample :
    pyLower "A1" = pyLower "a1" ∧
    get_card_by_id (some (.arr [.obj [("id", .str "/a1/001")]])) "A1" "001" =
      .error notFoundErr ∧
    get_card_by_id (some (.arr [.obj [("id", .str "/a1/001")]])) "a1" "001" =
      .ok (.obj [("id", .str "/a1/001")]) ∧
    (Except.error notFoundErr : Except Err Json) ≠
      .ok (.obj [("id", .str "/a1/001")]) := by
  exact ⟨by decide, by decide, by decide, by decide⟩

/-- Claim C2 as amended: the query operations that match or filter on a
string argument case-insensitively are searchByName, filterByType,
filterByRarity and filterBySet — their result is unchanged whenever the
argument is replaced by any string with the same case folding (in
particular its lower- or upper-cased form); getByKey is excluded, as its
composite-key matching is case-sensitive. -/
theorem claim_C2_amended (cd : Option Json) (q q' : String)
    (h : pyLower q = pyLower q') :
    search_cards_by_name cd q = search_cards_by_name cd q' ∧
    filter_cards_by_type cd q = filter_cards_by_type cd q' ∧
    filter_cards_by_rarity cd q = filter_cards_by_rarity cd q' ∧
    filter_cards_by_set cd q = filter_cards_by_set cd q' := by
  cases cd with
  | none => exact ⟨rfl, rfl, rfl, rfl⟩
  | some j =>
      refine ⟨?_, ?_, ?_, ?_⟩
      · simp only [search_cards_by_name]
        cases hpn : pyNot (some j) with
        | true => rfl
        | false =>
            simp only [Bool.false_eq_true, if_false]
            cases hcv : cardsExpr j with
            | error e => rfl
            | ok v =>
                simp only [exceptBindOk]
                cases hit : pyIter v with
                | error e => rfl
                | ok items =>
                    simp only [exceptBindOk]
                    exact searchLoop_congr q q' h items
      · simp only [filter_cards_by_type]
        cases hpn : pyNot (some j) with
        | true => rfl
        | false =>
            simp only [Bool.false_eq_true, if_false]
            cases hcv : cardsExpr j with
            | error e => rfl
            | ok v =>
                simp only [exceptBindOk]
                cases hit : pyIter v with
                | error e => rfl
                | ok items =>
                    simp only [exceptBindOk]
                    exact filterLoop_congr "type" q q' h items
      · simp only [filter_cards_by_rarity]
        cases hpn : pyNot (some j) with
        | true => rfl
        | false =>
            simp only [Bool.false_eq_true, if_false]
            cases hcv : cardsExpr j with
            | error e => rfl
            | ok v =>
                simp only [exceptBindOk]
                cases hit : pyIter v with
                | error e => rfl
                | ok items =>
                    simp only [exceptBindOk]
                    exact filterLoop_congr "rarity" q q' h items
      · simp only [filter_cards_by_set]
        cases hpn : pyNot (some j) with
        | true => rfl
        | false =>
            simp only [Bool.false_eq_true, if_false]
            cases hcv : cardsExpr j with
            | error e => rfl
            | ok v =>
                simp only [exceptBindOk]
                cases hit : pyIter v with
                | error e => rfl
                | ok items =>
                    simp only [exceptBindOk]
                    exact filterLoop_congr "set" q q' h items

/-- Witness for the amended claim C2 at a concrete Dataset and the
argument pair "PIKA" / "pika". -/
theorem claim_C2_amended_witness :
    search_cards_by_name (some (.arr [pikaEx])) "PIKA" =
      search_cards_by_name (some (.arr [pikaEx])) "pika" ∧
    filter_cards_by_type (some (.arr [pikaEx])) "PIKA" =
      filter_cards_by_type (some (.arr [pikaEx])) "pika" ∧
    filter_cards_by_rarity (some (.arr [pikaEx])) "PIKA" =
      filter_cards_by_rarity (some (.arr [pikaEx])) "pika" ∧
    filter_cards_by_set (some (.arr [pikaEx])) "PIKA" =
      filter_cards_by_set (some (.arr [pikaEx])) "pika" :=
  claim_C2_amended (some (.arr [pikaEx])) "PIKA" "pika" (by decide)

/-- The record scan of get_card_by_id returns the first record whose id,
converted to string, equals the key, provided every scanned element is a
map. -/
theorem findCard_eq_find (key : String) :
    ∀ l : List Json, (∀ r ∈ l, r.isObjB = true) →
      findCard key l = .ok (l.find? fun r => decide (idStrOf r = key))
  | [], _ => rfl
  | c :: rest, hok => by
      have hc := hok c (List.mem_cons_self c rest)
      have hrest : ∀ r ∈ rest, r.isObjB = true :=
        fun r hr => hok r (List.mem_cons_of_mem c hr)
      have ih := findCard_eq_find key rest hrest
      cases c with
      | obj kvs =>
          simp only [findCard]
          by_cases hid : pyStr ((lookupKV kvs "id").getD .null) = key
          · simp [hid, idStrOf, List.find?]
          · simp [hid, idStrOf, List.find?, ih]
      | null => simp [Json.isObjB] at hc
      | bool b => simp [Json.isObjB] at hc
      | num n => simp [Json.isObjB] at hc
      | str s => simp [Json.isObjB] at hc
      | arr xs => simp [Json.isObjB] at hc

/-- Counterexample to claim C1: on the mapping whose sole binding has
the composite key "/s/c" as its dict key but a record whose id is "x",
the Dataset (per the normalization rule, the mapping values) holds no
record with id "/s/c", so the claim demands NotFound — yet getByKey
returns the bound value without inspecting its id. -/
theorem claim_C1_counterexample :
    cardsOfSpec (.obj [("/s/c", .obj [("id", .str "x")])]) =
      some [.obj [("id", .str "x")]] ∧
    idStrOf (.obj [("id", .str "x")]) ≠ "/s/c" ∧
    get_card_by_id (some (.obj [("/s/c", .obj [("id", .str "x")])])) "s" "c" =
      .ok (.obj [("id", .str "x")]) ∧
    getByKeySpec [.obj [("id", .str "x")]] "/s/c" = .error notFoundErr := by
  exact ⟨by decide, by decide, by decide, by decide⟩

/-- Claim C1 as amended: for a Dataset published from a top-level
sequence of map-records, getByKey(setId, cardId) returns the first
record in Dataset order whose id field, converted to string, equals
"/{setId}/{cardId}", and fails with NotFound when no record has that id;
for mapping-shaped documents the code instead consults the mapping key
directly and then only the "cards" entry (see claim C9). -/
theorem claim_C1_amended (l : List Json) (s c : String)
    (hne : l ≠ []) (hobj : ∀ r ∈ l, r.isObjB = true) :
    get_card_by_id (some (.arr l)) s c = getByKeySpec l ("/" ++ s ++ "/" ++ c) := by
  have hgate : pyNot (some (.arr l)) = false := pyNot_some (truthy_arr hne)
  simp only [get_card_by_id, hgate, Bool.false_eq_true, if_false]
  rw [findCard_eq_find ("/" ++ s ++ "/" ++ c) l hobj]
  simp only [exceptBindOk]
  unfold getByKeySpec
  cases l.find? fun r => decide (idStrOf r = "/" ++ s ++ "/" ++ c) with
  | none => rfl
  | some r => rfl

/-- Witness for the amended claim C1 at a concrete two-record Dataset. -/
theorem claim_C1_amended_witness :
    get_card_by_id (some (.arr [pikaEx, bulbaEx])) "A1" "002" = .ok bulbaEx := by
  rw [claim_C1_amended [pikaEx, bulbaEx] "A1" "002" (by decide) (by decide)]
  decide

/-- A dict with a successful lookup is nonempty. -/
theorem lookup_ne_nil {kvs : List (String × Json)} {k : String} {v : Json}
    (h : lookupKV kvs k = some v) : kvs ≠ [] := by
  intro e
  subst e
  simp [lookupKV] at h

/-- A nonempty dict is truthy as a JSON object. -/
theorem truthy_obj {kvs : List (String × Json)} (h : kvs ≠ []) :
    (Json.obj kvs).truthy = true := by
  simp [Json.truthy, h]

/-- Claim C9: on a mapping-shaped dataset, getByKey first returns the
value bound to the composite key when that string is a key of the
mapping, without inspecting the value's id; otherwise it scans only the
sequence bound to "cards" (an empty scan when that key is absent, so a
mapping without "cards" always yields NotFound, whatever its other
values contain). -/
theorem claim_C9 (kvs : List (String × Json)) (s c : String) :
    (∀ v, lookupKV kvs ("/" ++ s ++ "/" ++ c) = some v →
      get_card_by_id (some (.obj kvs)) s c = .ok v) ∧
    (kvs ≠ [] → lookupKV kvs ("/" ++ s ++ "/" ++ c) = none →
      lookupKV kvs "cards" = none →
      get_card_by_id (some (.obj kvs)) s c = .error notFoundErr) ∧
    (∀ l, lookupKV kvs ("/" ++ s ++ "/" ++ c) = none →
      lookupKV kvs "cards" = some (.arr l) →
      get_card_by_id (some (.obj kvs)) s c =
        match findCard ("/" ++ s ++ "/" ++ c) l with
        | .ok (some card) => .ok card
        | .ok none => .error notFoundErr
        | .error e => .error e) := by
  refine ⟨?_, ?_, ?_⟩
  · intro v hv
    have hgate : pyNot (some (.obj kvs)) = false :=
      pyNot_some (truthy_obj (lookup_ne_nil hv))
    simp only [get_card_by_id, hgate, Bool.false_eq_true, if_false, hv]
  · intro hne h1 h2
    have hgate : pyNot (some (.obj kvs)) = false :=
      pyNot_some (truthy_obj hne)
    simp only [get_card_by_id, hgate, Bool.false_eq_true, if_false, h1, h2,
               Option.getD, pyIter, findCard, exceptBindOk]
  · intro l h1 h2
    have hgate : pyNot (some (.obj kvs)) = false :=
      pyNot_some (truthy_obj (lookup_ne_nil h2))
    simp only [get_card_by_id, hgate, Bool.false_eq_true, if_false, h1, h2,
               Option.getD, pyIter, exceptBindOk]
    cases hf : findCard ("/" ++ s ++ "/" ++ c) l with
    | error e => rfl
    | ok r => cases r <;> rfl

/-- Witness for claim C9: the three behaviors at concrete mappings — a
direct mapping-key hit ignoring the id, a mapping without "cards"
failing NotFound although one of its values has the matching id, and a
mapping whose "cards" sequence is scanned. -/
theorem claim_C9_witness :
    get_card_by_id (some (.obj [("/s/c", .obj [("id", .str "x")])])) "s" "c" =
      .ok (.obj [("id", .str "x")]) ∧
    get_card_by_id (some (.obj [("k", .obj [("id", .str "/s/c")])])) "s" "c" =
      .error notFoundErr ∧
    get_card_by_id
      (some (.obj [("k", .obj [("id", .str "/A1/001")]),
                   ("cards", .arr [pikaEx])])) "A1" "001" = .ok pikaEx := by
  refine ⟨?_, ?_, ?_⟩
  · exact (claim_C9 [("/s/c", .obj [("id", .str "x")])] "s" "c").1
      (.obj [("id", .str "x")]) rfl
  · exact (claim_C9 [("k", .obj [("id", .str "/s/c")])] "s" "c").2.1
      (by decide) rfl rfl
  · have h := (claim_C9 [("k", .obj [("id", .str "/A1/001")]),
                         ("cards", .arr [pikaEx])] "A1" "001").2.2 [pikaEx] rfl rfl
    rw [h]
    decide

/-- Counterexample to claim C3: on a mapping whose "cards" key is bound
to a non-sequence (here a nested mapping), the spec rule says the
mapping values form the Dataset, but the code takes the bound value
itself as the cards collection; observably, the search endpoint then
iterates the nested mapping keys and raises, where a search over the
spec Dataset would return an empty ok result. -/
theorem claim_C3_counterexample :
    cardsOfSpec (.obj [("cards", .obj [("inner", .obj [("name", .str "Pikachu")])])]) =
      some [.obj [("inner", .obj [("name", .str "Pikachu")])]] ∧
    cardsExpr (.obj [("cards", .obj [("inner", .obj [("name", .str "Pikachu")])])]) =
      .ok (.obj [("inner", .obj [("name", .str "Pikachu")])]) ∧
    (Json.obj [("inner", .obj [("name", .str "Pikachu")])]) ≠
      .arr [.obj [("inner", .obj [("name", .str "Pikachu")])]] ∧
    search_cards_by_name
      (some (.obj [("cards", .obj [("inner", .obj [("name", .str "Pikachu")])])]))
      "pikachu" = .error .typeError ∧
    searchLoop "pikachu" [.obj [("inner", .obj [("name", .str "Pikachu")])]] =
      .ok [] := by
  exact ⟨by decide, by decide, by decide, by decide, by decide⟩

/-- Claim C3 as amended: a top-level sequence is used as-is; a mapping
with "cards" bound to a sequence contributes that sequence; a mapping
with no "cards" key contributes its values in the mapping's own
iteration order; but when "cards" is present and bound to a non-sequence
the code uses that bound value itself as the cards collection rather
than the mapping's values.  Under the stated shapes the record sequence
the operations iterate over is exactly the spec's Dataset. -/
theorem claim_C3_amended (d : Json) (l : List Json)
    (hspec : cardsOfSpec d = some l) (hshape : specShapeOkB d = true) :
    cardsExpr d = .ok (.arr l) ∧ cardsExprAll d = .arr l ∧
    pyIter (.arr l) = .ok l := by
  cases d with
  | arr xs =>
      simp only [cardsOfSpec, Option.some.injEq] at hspec
      subst hspec
      exact ⟨rfl, rfl, rfl⟩
  | obj kvs =>
      simp only [cardsOfSpec] at hspec
      cases hck : lookupKV kvs "cards" with
      | none =>
          rw [hck] at hspec
          simp only [Option.some.injEq] at hspec
          subst hspec
          refine ⟨?_, ?_, rfl⟩
          · simp [cardsExpr, hck]
          · simp [cardsExprAll, hck]
      | some v =>
          rw [hck] at hspec
          cases v with
          | arr xs =>
              simp only [Option.some.injEq] at hspec
              subst hspec
              refine ⟨?_, ?_, rfl⟩
              · simp [cardsExpr, hck]
              · simp [cardsExprAll, hck]
          | null => simp [specShapeOkB, hck] at hshape
          | bool b => simp [specShapeOkB, hck] at hshape
          | num n => simp [specShapeOkB, hck] at hshape
          | str s => simp [specShapeOkB, hck] at hshape
          | obj kvs2 => simp [specShapeOkB, hck] at hshape
  | null => simp [cardsOfSpec] at hspec
  | bool b => simp [cardsOfSpec] at hspec
  | num n => simp [cardsOfSpec] at hspec
  | str s => simp [cardsOfSpec] at hspec

/-- Witness for the amended claim C3 at a mapping without a "cards"
key: the mapping values are the iterated record sequence. -/
theorem claim_C3_amended_witness :
    cardsExpr (.obj [("a", pikaEx)]) = .ok (.arr [pikaEx]) ∧
    cardsExprAll (.obj [("a", pikaEx)]) = .arr [pikaEx] ∧
    pyIter (.arr [pikaEx]) = .ok [pikaEx] :=
  claim_C3_amended (.obj [("a", pikaEx)]) [pikaEx] (by decide) (by decide)

/-- The frequency table built by the stats loop for one field, starting
from the empty dict. -/
def tallyF (field : String) (l : List Json) : List (Json × Nat) :=
  l.foldl (fun acc c => bump acc (labelOf c field)) []

/-- A counter update adds exactly one to the total of a table. -/
theorem sumCounts_bump : ∀ (t : List (Json × Nat)) (k : Json),
    sumCounts (bump t k) = sumCounts t + 1
  | [], k => by simp [bump, sumCounts]
  | (a, n) :: rest, k => by
      have ih := sumCounts_bump rest k
      by_cases h : pyKey k = pyKey a
      · simp [bump, h, sumCounts]
        omega
      · simp [bump, h, sumCounts] at *
        omega

/-- A counter update adds one to the bumped label (up to the Python key
identification) and leaves every other label unchanged. -/
theorem lookupCount_bump : ∀ (t : List (Json × Nat)) (k k' : Json),
    lookupCount (bump t k) k' =
      lookupCount t k' + if pyKey k' = pyKey k then 1 else 0
  | [], k, k' => by
      by_cases h : pyKey k' = pyKey k <;> simp [bump, lookupCount, h]
  | (a, n) :: rest, k, k' => by
      have ih := lookupCount_bump rest k k'
      by_cases hka : pyKey k = pyKey a
      · by_cases h2 : pyKey k' = pyKey a
        · have h3 : pyKey k' = pyKey k := by rw [h2, hka]
          simp [bump, hka, lookupCount, h2, h3]
        · have h3 : ¬ pyKey k' = pyKey k := fun e => h2 (e.trans hka)
          simp [bump, hka, lookupCount, h2, h3]
      · by_cases h2 : pyKey k' = pyKey a
        · have h3 : ¬ pyKey k' = pyKey k := fun e => hka (e.symm.trans h2)
          have h4 : ¬ pyKey a = pyKey k := fun e => hka e.symm
          simp [bump, hka, lookupCount, h2, h3, h4]
        · simp [bump, hka, lookupCount, h2, ih]

/-- Folding counter updates over a list adds the list length to the
total of the table. -/
theorem sumCounts_foldl (g : Json → Json) :
    ∀ (l : List Json) (t : List (Json × Nat)),
      sumCounts (l.foldl (fun acc c => bump acc (g c)) t) = sumCounts t + l.length
  | [], t => by simp
  | c :: rest, t => by
      simp only [List.foldl_cons, List.length_cons]
      rw [sumCounts_foldl g rest (bump t (g c)), sumCounts_bump]
      omega

/-- Folding counter updates over a list adds, for each label, the number
of elements whose label is that Python dict key. -/
theorem lookupCount_foldl (g : Json → Json) (k : Json) :
    ∀ (l : List Json) (t : List (Json × Nat)),
      lookupCount (l.foldl (fun acc c => bump acc (g c)) t) k =
        lookupCount t k + l.countP (fun c => decide (pyKey (g c) = pyKey k))
  | [], t => by simp
  | c :: rest, t => by
      simp only [List.foldl_cons, List.countP_cons]
      rw [lookupCount_foldl g k rest (bump t (g c)), lookupCount_bump]
      by_cases h : pyKey (g c) = pyKey k
      · rw [if_pos h.symm]
        simp [h]
        omega
      · rw [if_neg fun e => h e.symm]
        simp [h]

/-- The stats loop threads three independent counter folds, provided
every record is a map whose three labels are hashable. -/
theorem statsLoop_eq : ∀ (l : List Json) (t r s : List (Json × Nat)),
    (∀ x ∈ l, x.isObjB = true) →
    (∀ x ∈ l, (pyHashable (labelOf x "type") &&
               pyHashable (labelOf x "rarity") &&
               pyHashable (labelOf x "set")) = true) →
    statsLoop l t r s = .ok
      (l.foldl (fun acc c => bump acc (labelOf c "type")) t,
       l.foldl (fun acc c => bump acc (labelOf c "rarity")) r,
       l.foldl (fun acc c => bump acc (labelOf c "set")) s)
  | [], t, r, s, _, _ => rfl
  | c :: rest, t, r, s, hok, hhash => by
      have hc := hok c (List.mem_cons_self c rest)
      have hh := hhash c (List.mem_cons_self c rest)
      have hrest : ∀ x ∈ rest, x.isObjB = true :=
        fun x hx => hok x (List.mem_cons_of_mem c hx)
      have hrhash : ∀ x ∈ rest, (pyHashable (labelOf x "type") &&
          pyHashable (labelOf x "rarity") &&
          pyHashable (labelOf x "set")) = true :=
        fun x hx => hhash x (List.mem_cons_of_mem c hx)
      cases c with
      | obj kvs =>
          simp only [statsLoop, List.foldl_cons, hh, if_true]
          exact statsLoop_eq rest _ _ _ hrest hrhash
      | null => simp [Json.isObjB] at hc
      | bool b => simp [Json.isObjB] at hc
      | num n => simp [Json.isObjB] at hc
      | str s2 => simp [Json.isObjB] at hc
      | arr xs => simp [Json.isObjB] at hc

/-- Claim C7: on a published Dataset of N map-records whose type, rarity
and set labels are hashable (as every record with string or absent
fields is), stats returns total = N together with three frequency
tables that count, for each record, its type, rarity and set labels
(default "Unknown" when absent, labels not case-folded; labels are
identified as Python dict keys, under which True and 1 share a slot),
so each table's counts sum to N. -/
theorem claim_C7 (d : Json) (l : List Json)
    (ht : d.truthy = true) (hc : cardsExpr d = .ok (.arr l))
    (hobj : ∀ r ∈ l, r.isObjB = true)
    (hhash : ∀ r ∈ l, (pyHashable (labelOf r "type") &&
        pyHashable (labelOf r "rarity") &&
        pyHashable (labelOf r "set")) = true) :
    get_stats (some d) =
      .ok ⟨l.length, tallyF "type" l, tallyF "rarity" l, tallyF "set" l⟩ ∧
    (∀ lab, lookupCount (tallyF "type" l) lab =
      l.countP (fun c => decide (pyKey (labelOf c "type") = pyKey lab))) ∧
    (∀ lab, lookupCount (tallyF "rarity" l) lab =
      l.countP (fun c => decide (pyKey (labelOf c "rarity") = pyKey lab))) ∧
    (∀ lab, lookupCount (tallyF "set" l) lab =
      l.countP (fun c => decide (pyKey (labelOf c "set") = pyKey lab))) ∧
    sumCounts (tallyF "type" l) = l.length ∧
    sumCounts (tallyF "rarity" l) = l.length ∧
    sumCounts (tallyF "set" l) = l.length := by
  have hgate : pyNot (some d) = false := pyNot_some ht
  refine ⟨?_, ?_, ?_, ?_, ?_, ?_, ?_⟩
  · simp only [get_stats, hgate, Bool.false_eq_true, if_false, hc,
               exceptBindOk, pyLen, pyIter]
    rw [statsLoop_eq l [] [] [] hobj hhash]
    simp only [exceptBindOk]
    rfl
  · intro lab
    rw [tallyF, lookupCount_foldl]
    simp [lookupCount]
  · intro lab
    rw [tallyF, lookupCount_foldl]
    simp [lookupCount]
  · intro lab
    rw [tallyF, lookupCount_foldl]
    simp [lookupCount]
  · rw [tallyF, sumCounts_foldl]
    simp [sumCounts]
  · rw [tallyF, sumCounts_foldl]
    simp [sumCounts]
  · rw [tallyF, sumCounts_foldl]
    simp [sumCounts]

/-- Witness for claim C7 at a concrete two-record Dataset: total is 2,
the rarity table counts "Common" twice, and the type counts sum to 2. -/
theorem claim_C7_witness :
    get_stats (some (.arr [pikaEx, bulbaEx])) =
      .ok ⟨2, tallyF "type" [pikaEx, bulbaEx], tallyF "rarity" [pikaEx, bulbaEx],
           tallyF "set" [pikaEx, bulbaEx]⟩ ∧
    lookupCount (tallyF "rarity" [pikaEx, bulbaEx]) (.str "Common") =
      [pikaEx, bulbaEx].countP
        (fun c => decide (pyKey (labelOf c "rarity") = pyKey (.str "Common"))) ∧
    sumCounts (tallyF "type" [pikaEx, bulbaEx]) = 2 := by
  have h := claim_C7 (.arr [pikaEx, bulbaEx]) [pikaEx, bulbaEx]
    (by decide) rfl (by decide) (by decide)
  exact ⟨h.1, h.2.2.1 (.str "Common"), h.2.2.2.2.1⟩
